import Mathlib

/-!
Verification of `src/ml-service/scripts/load_initial_data.py`.

The script's pure logic is shallowly embedded below:
* CSV review rows are string-keyed records whose values are `Option String`
  (`none` models Python's `None` for short rows).
* JSON values are modelled by `Val`; numbers are modelled as exact rationals.
* Python exceptions are modelled by `Except`: `ValErr` enumerates the
  `ValueError` conditions raised by the script, and `PyExc` additionally
  covers the `AttributeError` / `TypeError` cases that Python raises when a
  value of the wrong shape reaches an attribute access or a comparison.
* Timestamps (`datetime.utcnow()`) are irrelevant to every claim and are
  abstracted: `created_at` / `metadata` dates are left out of `ReviewDoc`
  and set to `Val.null` in the location metadata block.
-/

/-- The `ValueError` conditions raised by the script, one constructor per
distinct failure condition in the source. -/
inductive ValErr where
  | missingField (field : String)
  | tooShort
  | invalidGeoType
  | invalidCoordArity
  | outOfRangeLon
  | outOfRangeLat
  | schemaMismatch (missing : List String)
  | invalidJson
  | invalidShape
deriving DecidableEq, Repr

/-- Python exceptions observable in the validation code: `ValueError` (the
only kind the loaders catch), plus `AttributeError` and `TypeError` raised
by `.get` on a non-dict and by `len` or comparisons on unsuitable values. -/
inductive PyExc where
  | valueError (e : ValErr)
  | attributeError
  | typeError
deriving DecidableEq, Repr

/-- Whitespace characters removed by Python's `str.strip()` (ASCII part;
the exotic Unicode space characters never occur in the claims). -/
def isPySpace (c : Char) : Bool :=
  c = ' ' || c = '\t' || c = '\n' || c = '\r' || c = '\x0b' || c = '\x0c'

/-- Strip `isPySpace` characters from both ends of a character list. -/
def stripChars (l : List Char) : List Char :=
  ((l.dropWhile isPySpace).reverse.dropWhile isPySpace).reverse

/-- Model of Python's `str.strip()`. -/
def pyStrip (s : String) : String := ⟨stripChars s.data⟩

/-- A CSV row as produced by `csv.DictReader`: association list from column
names to values, where `none` models Python `None` (missing cell). -/
def CsvRow : Type := List (String × Option String)

/-- Lookup of a key in a CSV row: `none` when the key is absent,
`some v` when present with cell value `v`. -/
def rowGet (row : CsvRow) (k : String) : Option (Option String) :=
  (List.find? (fun p => p.1 == k) row).map (fun p => p.2)

/-- Python truthiness of a CSV cell: `None` and the empty string are falsy. -/
def truthy : Option String → Bool
  | none => false
  | some s => !(s == "")

/-- The check `field in row and row[field]` from `validate_review`. -/
def fieldPresent (row : CsvRow) (f : String) : Bool :=
  match rowGet row f with
  | none => false
  | some v => truthy v

/-- Raw cell text for a field known to be present (default never used on the
success path). -/
def getStr (row : CsvRow) (f : String) : String :=
  match rowGet row f with
  | some (some s) => s
  | _ => ""

/-- The required CSV fields, in the order `validate_review` checks them. -/
def requiredReviewFields : List String :=
  ["Destination", "District", "Location_Type", "Review"]

/-- The review document built by `DataValidator.validate_review`
(timestamp and constant provenance metadata abstracted away). -/
structure ReviewDoc where
  destination : String
  district : String
  location_type : String
  review_text : String
deriving DecidableEq, Repr

/-- Embedding of `DataValidator.validate_review`: check the four required
fields for presence and truthiness in order, build the stripped document,
then enforce the 10-character minimum on the review text.  The function can
only raise `ValueError`, matching the Python code. -/
def validate_review (row : CsvRow) : Except ValErr ReviewDoc :=
  match List.find? (fun f => !(fieldPresent row f)) requiredReviewFields with
  | some f => .error (.missingField f)
  | none =>
    if (pyStrip (getStr row "Review")).length < 10 then .error .tooShort
    else .ok
      { destination := pyStrip (getStr row "Destination")
        district := pyStrip (getStr row "District")
        location_type := pyStrip (getStr row "Location_Type")
        review_text := pyStrip (getStr row "Review") }

/-! Idempotence of stripping: needed to state that the produced fields carry
no surrounding whitespace. -/

theorem dropWhile_dropWhile (p : Char → Bool) (l : List Char) :
    List.dropWhile p (List.dropWhile p l) = List.dropWhile p l := by
  induction l with
  | nil => rfl
  | cons c t ih =>
    by_cases h : p c
    · simpa [List.dropWhile, h] using ih
    · simp [List.dropWhile, h]

theorem dropWhile_append_single (p : Char → Bool) (c : Char) (h : p c = false)
    (xs : List Char) :
    List.dropWhile p (xs ++ [c]) = List.dropWhile p xs ++ [c] := by
  induction xs with
  | nil => simp [List.dropWhile, h]
  | cons x t ih =>
    by_cases hx : p x
    · simpa [List.dropWhile, hx] using ih
    · simp [List.dropWhile, hx]

theorem head_dropWhile_false (p : Char → Bool) (l : List Char) (c : Char)
    (t : List Char) (h : List.dropWhile p l = c :: t) : p c = false := by
  induction l with
  | nil => simp [List.dropWhile] at h
  | cons x xs ih =>
    by_cases hx : p x
    · exact ih (by simpa [List.dropWhile, hx] using h)
    · simp [List.dropWhile, hx] at h
      rcases h with ⟨rfl, rfl⟩
      exact Bool.eq_false_iff.mpr hx

theorem dropWhile_stripChars (l : List Char) :
    List.dropWhile isPySpace (stripChars l) = stripChars l := by
  have key : ∀ m : List Char, List.dropWhile isPySpace m = m →
      List.dropWhile isPySpace (List.dropWhile isPySpace m.reverse).reverse
        = (List.dropWhile isPySpace m.reverse).reverse := by
    intro m hmfix
    cases m with
    | nil => simp
    | cons c t =>
      have hc : isPySpace c = false := head_dropWhile_false _ _ _ _ hmfix
      rw [show (c :: t).reverse = t.reverse ++ [c] by simp]
      rw [dropWhile_append_single _ _ hc]
      rw [show (List.dropWhile isPySpace t.reverse ++ [c]).reverse
            = c :: (List.dropWhile isPySpace t.reverse).reverse by simp]
      simp [List.dropWhile, hc]
  have hrepr : stripChars l
      = (List.dropWhile isPySpace (List.dropWhile isPySpace l).reverse).reverse := rfl
  rw [hrepr]
  exact key _ (dropWhile_dropWhile _ _)

theorem stripChars_idem (l : List Char) :
    stripChars (stripChars l) = stripChars l := by
  conv_lhs => rw [stripChars]
  rw [dropWhile_stripChars]
  conv_lhs => rw [stripChars]
  rw [List.reverse_reverse, dropWhile_dropWhile]
  rfl

theorem pyStrip_idem (s : String) : pyStrip (pyStrip s) = pyStrip s := by
  unfold pyStrip
  exact congrArg String.mk (stripChars_idem s.data)

/-- Claim C1 (amended): every row accepted by `validate_review` yields a
document whose `review_text` has length at least 10 (hence is non-empty)
and whose four fields carry no surrounding whitespace; `destination`,
`district` and `location_type` come from non-empty raw cells but may
themselves be empty when the raw cell was whitespace-only. -/
theorem C1_validate_review_fields (row : CsvRow) (doc : ReviewDoc)
    (h : validate_review row = .ok doc) :
    10 ≤ doc.review_text.length ∧ doc.review_text ≠ "" ∧
    pyStrip doc.destination = doc.destination ∧
    pyStrip doc.district = doc.district ∧
    pyStrip doc.location_type = doc.location_type ∧
    pyStrip doc.review_text = doc.review_text := by
  unfold validate_review at h
  split at h
  · exact absurd h (by simp)
  · split at h
    · exact absurd h (by simp)
    · rename_i hlen
      simp only [Except.ok.injEq] at h
      subst h
      dsimp only
      refine ⟨by omega, ?_, pyStrip_idem _, pyStrip_idem _, pyStrip_idem _, pyStrip_idem _⟩
      intro he
      rw [he] at hlen
      exact hlen (by simp)

/-- A concrete row whose `Destination` cell is a single space: truthy for the
presence check, but stripped to the empty string afterwards. -/
def c1Row : CsvRow :=
  [("Destination", some " "), ("District", some "Matale"),
   ("Location_Type", some "Historical"), ("Review", some "Amazing place to visit")]

/-- Claim C1 counterexample: `validate_review` accepts `c1Row` (no exception)
yet returns a document whose `destination` field is the empty string, so the
four fields are not all non-empty. -/
theorem C1_counterexample :
    validate_review c1Row
      = .ok { destination := "", district := "Matale",
              location_type := "Historical",
              review_text := "Amazing place to visit" } := by rfl

/-- A fully well-formed concrete row. -/
def c1GoodRow : CsvRow :=
  [("Destination", some " Sigiriya "), ("District", some "Matale"),
   ("Location_Type", some "Historical"), ("Review", some " Amazing place to visit ")]

/-- The document `validate_review` produces from `c1GoodRow`. -/
def c1GoodDoc : ReviewDoc :=
  { destination := "Sigiriya", district := "Matale",
    location_type := "Historical", review_text := "Amazing place to visit" }

/-- Witness for C1 at the concrete row `c1GoodRow`. -/
theorem C1_witness :
    10 ≤ c1GoodDoc.review_text.length ∧ c1GoodDoc.review_text ≠ "" ∧
    pyStrip c1GoodDoc.destination = c1GoodDoc.destination ∧
    pyStrip c1GoodDoc.district = c1GoodDoc.district ∧
    pyStrip c1GoodDoc.location_type = c1GoodDoc.location_type ∧
    pyStrip c1GoodDoc.review_text = c1GoodDoc.review_text :=
  C1_validate_review_fields c1GoodRow c1GoodDoc (by rfl)

/-- JSON values, as handed to `validate_location` after `json.load`.
Numbers are modelled as exact rationals. -/
inductive Val where
  | null
  | bool (b : Bool)
  | num (q : Rat)
  | str (s : String)
  | arr (xs : List Val)
  | obj (fields : List (String × Val))

/-- Lookup of a key in a JSON object's field list (first match, as in a
Python dict, whose keys are unique). -/
def objGet (fs : List (String × Val)) (k : String) : Option Val :=
  (List.find? (fun p => p.1 == k) fs).map (fun p => p.2)

/-- Key-presence test on a JSON object's field list. -/
def hasKey (fs : List (String × Val)) (k : String) : Bool :=
  fs.any (fun p => p.1 == k)

/-- Python `v.get(k, dflt)`: succeeds only on dicts, `AttributeError`
otherwise (lists and strings have no `get` method). -/
def pyGetD (v : Val) (k : String) (dflt : Val) : Except PyExc Val :=
  match v with
  | .obj fs => .ok ((objGet fs k).getD dflt)
  | _ => .error .attributeError

/-- Substring test, modelling Python's `in` on strings. -/
def strInfix (needle hay : String) : Bool :=
  (List.range (hay.data.length + 1)).any
    (fun i => needle.data.isPrefixOf (hay.data.drop i))

/-- Python `k in v` for a string `k`: key test on dicts, membership on
lists, substring test on strings, `TypeError` on numbers / booleans /
`None`. -/
def pyContains (v : Val) (k : String) : Except PyExc Bool :=
  match v with
  | .obj fs => .ok (hasKey fs k)
  | .arr xs => .ok (xs.any (fun x => match x with | .str s => s == k | _ => false))
  | .str s => .ok (strInfix k s)
  | _ => .error .typeError

/-- Python `len(v)`: defined on lists, strings and dicts, `TypeError`
otherwise. -/
def pyLen (v : Val) : Except PyExc Nat :=
  match v with
  | .arr xs => .ok xs.length
  | .str s => .ok s.length
  | .obj fs => .ok fs.length
  | _ => .error .typeError

/-- Numeric view used by Python's order comparisons: numbers compare as
themselves and booleans as 0 / 1; anything else raises `TypeError` when
compared with a number. -/
def Val.asNum : Val → Option Rat
  | .num q => some q
  | .bool b => some (if b then 1 else 0)
  | _ => none

/-- Python `d[k] = v` on a dict: replace the value of an existing key in
place, else append the new key at the end (insertion order preserved). -/
def setKey (fs : List (String × Val)) (k : String) (v : Val) :
    List (String × Val) :=
  if fs.any (fun p => p.1 == k) then
    fs.map (fun p => if p.1 == k then (k, v) else p)
  else fs ++ [(k, v)]

/-- The `metadata` block `validate_location` attaches to a location
(datetime values abstracted as `null`). -/
def importMetadata : Val :=
  .obj [("source", .str "json_import"), ("import_date", .null),
        ("last_updated", .null)]

/-- The required location fields, in the order `validate_location` checks
them. -/
def requiredLocationFields : List String := ["locationId", "name", "coordinates"]

/-- The `for field in required_fields` presence loop of `validate_location`:
returns the first missing field, or propagates the exception `in` raises on
an unsuitable receiver. -/
def findMissingLoc (location : Val) : List String → Except PyExc (Option String)
  | [] => .ok none
  | f :: rest =>
    match pyContains location f with
    | .error e => .error e
    | .ok true => findMissingLoc location rest
    | .ok false => .ok (some f)

/-- Embedding of `DataValidator.validate_location`: presence check for
`locationId` / `name` / `coordinates` (presence only — values are not
inspected), GeoJSON type check, coordinate arity check, then the two range
checks (longitude first, matching the evaluation order of the chained
comparisons), and finally the in-place `metadata` attachment.  Shapes on
which the Python would raise `AttributeError` or `TypeError` (non-dict
`coordinates`, unsized or non-numeric coordinate entries, non-dict
receivers of `in`) are mapped to those exceptions. -/
def validate_location (location : Val) : Except PyExc Val :=
  match findMissingLoc location requiredLocationFields with
  | .error e => .error e
  | .ok (some f) => .error (.valueError (.missingField f))
  | .ok none =>
    match pyGetD location "coordinates" (.obj []) with
    | .error e => .error e
    | .ok coords =>
      match pyGetD coords "type" .null with
      | .error e => .error e
      | .ok ty =>
        match ty with
        | .str s =>
          if s = "Point" then
            match pyGetD coords "coordinates" (.arr []) with
            | .error e => .error e
            | .ok coordArray =>
              match pyLen coordArray with
              | .error e => .error e
              | .ok n =>
                if n = 2 then
                  match coordArray with
                  | .arr [a, b] =>
                    match a.asNum with
                    | none => .error .typeError
                    | some lon =>
                      if -180 ≤ lon ∧ lon ≤ 180 then
                        match b.asNum with
                        | none => .error .typeError
                        | some lat =>
                          if -90 ≤ lat ∧ lat ≤ 90 then
                            match location with
                            | .obj fs => .ok (.obj (setKey fs "metadata" importMetadata))
                            | _ => .error .typeError
                          else .error (.valueError .outOfRangeLat)
                      else .error (.valueError .outOfRangeLon)
                  | _ => .error .typeError
                else .error (.valueError .invalidCoordArity)
          else .error (.valueError .invalidGeoType)
        | _ => .error (.valueError .invalidGeoType)

/-- Test whether a validation result is one of the two out-of-range
`ValueError` failures. -/
def isOutOfRangeFailure : Except PyExc Val → Bool
  | .error (.valueError .outOfRangeLon) => true
  | .error (.valueError .outOfRangeLat) => true
  | _ => false

/-- Key-presence test lifted to a JSON value (false on non-objects). -/
def Val.hasField (v : Val) (k : String) : Bool :=
  match v with
  | .obj fs => hasKey fs k
  | _ => false

theorem hasKey_of_objGet (fs : List (String × Val)) (k : String) (v : Val)
    (h : objGet fs k = some v) : hasKey fs k = true := by
  induction fs with
  | nil => simp [objGet] at h
  | cons q rest ih =>
    by_cases hq : (q.1 == k) = true
    · simp [hasKey, hq]
    · have hq' : (q.1 == k) = false := by simpa using hq
      have h' : objGet rest k = some v := by
        simpa [objGet, List.find?, hq'] using h
      have hrest := ih h'
      unfold hasKey at hrest ⊢
      simp only [List.any_cons, hq', Bool.false_or]
      exact hrest

/-- Evaluation of `validate_location` on a location that has the three
required keys and a well-formed GeoJSON Point with numeric entries: the
outcome is decided by the two range checks, longitude first. -/
theorem validate_location_eval (fs cfs : List (String × Val)) (lon lat : Rat)
    (hId : hasKey fs "locationId" = true)
    (hName : hasKey fs "name" = true)
    (hCoord : objGet fs "coordinates" = some (.obj cfs))
    (hType : objGet cfs "type" = some (.str "Point"))
    (hArr : objGet cfs "coordinates" = some (.arr [.num lon, .num lat])) :
    validate_location (.obj fs) =
      if -180 ≤ lon ∧ lon ≤ 180 then
        if -90 ≤ lat ∧ lat ≤ 90 then
          .ok (.obj (setKey fs "metadata" importMetadata))
        else .error (.valueError .outOfRangeLat)
      else .error (.valueError .outOfRangeLon) := by
  have hKeyCoord : hasKey fs "coordinates" = true := hasKey_of_objGet _ _ _ hCoord
  simp [validate_location, findMissingLoc, requiredLocationFields, pyContains,
    hId, hName, hKeyCoord, pyGetD, hCoord, hType, hArr, pyLen, Val.asNum]

/-- Claim C2 (amended): for a location that also carries the `locationId`
and `name` keys, a well-formed Point whose longitude is outside [-180,180]
or whose latitude is outside [-90,90] makes `validate_location` fail with
an out-of-range `ValueError` and return no document. -/
theorem C2_out_of_range_rejected (fs cfs : List (String × Val)) (lon lat : Rat)
    (hId : hasKey fs "locationId" = true)
    (hName : hasKey fs "name" = true)
    (hCoord : objGet fs "coordinates" = some (.obj cfs))
    (hType : objGet cfs "type" = some (.str "Point"))
    (hArr : objGet cfs "coordinates" = some (.arr [.num lon, .num lat]))
    (hOut : ¬(-180 ≤ lon ∧ lon ≤ 180) ∨ ¬(-90 ≤ lat ∧ lat ≤ 90)) :
    isOutOfRangeFailure (validate_location (.obj fs)) = true := by
  rw [validate_location_eval fs cfs lon lat hId hName hCoord hType hArr]
  by_cases hlon : -180 ≤ lon ∧ lon ≤ 180
  · rcases hOut with hOut | hOut
    · exact absurd hlon hOut
    · rw [if_pos hlon, if_neg hOut]; rfl
  · rw [if_neg hlon]; rfl

/-- A location whose coordinates are out of range but which lacks
`locationId` and `name`. -/
def c2NoIdLoc : Val :=
  .obj [("coordinates", .obj [("type", .str "Point"),
        ("coordinates", .arr [.num 200, .num 5])])]

/-- Claim C2 counterexample: on a location whose Point has longitude 200
but which lacks `locationId`, `validate_location` raises the missing-field
`ValueError`, not the out-of-range one, so the claim as stated (quantified
over all locations with such a coordinates field) fails. -/
theorem C2_counterexample :
    validate_location c2NoIdLoc = .error (.valueError (.missingField "locationId"))
      ∧ isOutOfRangeFailure (validate_location c2NoIdLoc) = false :=
  ⟨rfl, rfl⟩

/-- A complete location whose longitude 200 is out of range. -/
def c2BadLonLoc : List (String × Val) :=
  [("locationId", .str "L1"), ("name", .str "Nowhere"),
   ("coordinates", .obj [("type", .str "Point"),
    ("coordinates", .arr [.num 200, .num 5])])]

/-- Witness for C2 at the concrete location `c2BadLonLoc`. -/
theorem C2_witness :
    isOutOfRangeFailure (validate_location (.obj c2BadLonLoc)) = true :=
  C2_out_of_range_rejected c2BadLonLoc
    [("type", .str "Point"), ("coordinates", .arr [.num 200, .num 5])]
    200 5 (by rfl) (by rfl) (by rfl) (by rfl) (by rfl)
    (Or.inl (by norm_num))

theorem findMissingLoc_none_mem (location : Val) (l : List String) (f : String)
    (h : findMissingLoc location l = .ok none) (hf : f ∈ l) :
    pyContains location f = .ok true := by
  induction l with
  | nil => cases hf
  | cons g rest ih =>
    unfold findMissingLoc at h
    cases hg : pyContains location g with
    | error e => rw [hg] at h; simp at h
    | ok b =>
      rw [hg] at h
      cases b with
      | false => simp at h
      | true =>
        cases hf with
        | head => exact hg
        | tail _ hf' => exact ih h hf'

theorem hasKey_setKey_of_hasKey (fs : List (String × Val)) (k k' : String)
    (v : Val) (h : hasKey fs k' = true) : hasKey (setKey fs k v) k' = true := by
  unfold setKey
  split
  · unfold hasKey at h ⊢
    rcases List.any_eq_true.mp h with ⟨p, hmem, hp⟩
    refine List.any_eq_true.mpr ⟨(if p.1 == k then (k, v) else p), List.mem_map_of_mem _ hmem, ?_⟩
    by_cases hpk : (p.1 == k) = true
    · have hk : p.1 = k := by simpa using hpk
      rw [if_pos hpk]
      rw [← hk]
      exact hp
    · rw [if_neg hpk]
      exact hp
  · unfold hasKey at h ⊢
    rw [List.any_append, h, Bool.true_or]

/-- Success shape of `validate_location`: an accepted location is a dict,
its required-field checks all passed, and the returned document is the
input dict with the `metadata` key set. -/
theorem validate_location_ok_shape (location doc : Val)
    (h : validate_location location = .ok doc) :
    ∃ fs, location = .obj fs ∧ doc = .obj (setKey fs "metadata" importMetadata) ∧
      findMissingLoc location requiredLocationFields = .ok none := by
  unfold validate_location at h
  repeat' split at h
  all_goals simp at h
  exact ⟨_, rfl, h.symm, by assumption⟩

/-- Claim C7 (amended): every location accepted by `validate_location` is a
dict that has a `name` key; the code checks only for the key's presence, so
the value may be the empty string or a non-string. -/
theorem C7_name_key_present (location doc : Val)
    (h : validate_location location = .ok doc) :
    doc.hasField "name" = true := by
  rcases validate_location_ok_shape location doc h with ⟨fs, hloc, hdoc, hfind⟩
  subst hloc
  have hname : pyContains (.obj fs) "name" = .ok true :=
    findMissingLoc_none_mem _ _ _ hfind (by simp [requiredLocationFields])
  have hkey : hasKey fs "name" = true := by
    simpa [pyContains] using hname
  rw [hdoc]
  unfold Val.hasField
  exact hasKey_setKey_of_hasKey fs "metadata" "name" importMetadata hkey

/-- A location whose `name` value is the empty string. -/
def c7EmptyNameLoc : Val :=
  .obj [("locationId", .str "L1"), ("name", .str ""),
        ("coordinates", .obj [("type", .str "Point"),
         ("coordinates", .arr [.num 80, .num 7])])]

/-- Claim C7 counterexample: `validate_location` accepts `c7EmptyNameLoc`
(the result is a document, not an exception) although its `name` field is
the empty string — so accepted locations need not have a non-empty name. -/
theorem C7_counterexample :
    validate_location c7EmptyNameLoc
      = .ok (.obj [("locationId", .str "L1"), ("name", .str ""),
             ("coordinates", .obj [("type", .str "Point"),
              ("coordinates", .arr [.num 80, .num 7])]),
             ("metadata", importMetadata)]) := by rfl

/-- A location with a non-empty name, used as the C7 witness input. -/
def c7GoodLoc : Val :=
  .obj [("locationId", .str "L2"), ("name", .str "Sigiriya"),
        ("coordinates", .obj [("type", .str "Point"),
         ("coordinates", .arr [.num 80, .num 7])])]

/-- The document `validate_location` returns for `c7GoodLoc`. -/
def c7GoodOut : Val :=
  .obj [("locationId", .str "L2"), ("name", .str "Sigiriya"),
        ("coordinates", .obj [("type", .str "Point"),
         ("coordinates", .arr [.num 80, .num 7])]),
        ("metadata", importMetadata)]

/-- Witness for C7 at the concrete location `c7GoodLoc`. -/
theorem C7_witness : c7GoodOut.hasField "name" = true :=
  C7_name_key_present c7GoodLoc c7GoodOut (by rfl)

/-- True for lists (JSON arrays). -/
def Val.isArr : Val → Bool
  | .arr _ => true
  | _ => false

/-- True for dicts (JSON objects). -/
def Val.isObj : Val → Bool
  | .obj _ => true
  | _ => false

/-- A validation outcome is record-level when it is a success or a
`ValueError` — exactly the outcomes the loader's `except ValueError`
handler covers. -/
def isRecordLevel : Except PyExc Val → Bool
  | .ok _ => true
  | .error (.valueError _) => true
  | _ => false

/-- The per-element loop of `load_json_locations` (enumeration starts at 1):
valid locations are collected in order; a `ValueError` is caught and
recorded as `(index, location.get('name','Unknown'), error)`; any other
exception — including the `AttributeError` raised by `location.get` on a
non-dict and by `coords.get` on a non-dict `coordinates` — propagates. -/
def validateLocs : List Val → Nat → Except PyExc (List Val × List (Nat × Val × ValErr))
  | [], _ => .ok ([], [])
  | loc :: rest, idx =>
    match validate_location loc with
    | .ok d =>
      match validateLocs rest (idx + 1) with
      | .ok (ls, es) => .ok (d :: ls, es)
      | .error e => .error e
    | .error (.valueError ve) =>
      match pyGetD loc "name" (.str "Unknown") with
      | .error e => .error e
      | .ok nm =>
        match validateLocs rest (idx + 1) with
        | .ok (ls, es) => .ok (ls, (idx, nm, ve) :: es)
        | .error e => .error e
    | .error e => .error e

/-- Embedding of `DataLoader.load_json_locations` from the parse step on:
the argument is the outcome of `json.load` (`none` models a
`JSONDecodeError`, which the code converts to a `ValueError`). -/
def load_json_locations (parsed : Option Val) :
    Except PyExc (List Val × List (Nat × Val × ValErr)) :=
  match parsed with
  | none => .error (.valueError .invalidJson)
  | some v =>
    match v with
    | .arr data => validateLocs data 1
    | _ => .error (.valueError .invalidShape)

/-- Claim C9: a JSON file that parses to a non-array top-level value makes
`load_json_locations` fail with the invalid-shape `ValueError` (no record
returned, no element validated), and a file that does not parse fails with
the invalid-JSON `ValueError`. -/
theorem C9_shape_failures (parsed : Option Val) :
    (parsed = none →
      load_json_locations parsed = .error (.valueError .invalidJson)) ∧
    (∀ v, parsed = some v → v.isArr = false →
      load_json_locations parsed = .error (.valueError .invalidShape)) := by
  constructor
  · intro h
    subst h
    rfl
  · intro v hv hnot
    subst hv
    cases v with
    | arr xs => simp [Val.isArr] at hnot
    | null => rfl
    | bool b => rfl
    | num q => rfl
    | str s => rfl
    | obj fs => rfl

/-- Witness for C9: a top-level JSON object is rejected as invalid shape. -/
theorem C9_witness :
    load_json_locations (some (.obj [("locations", .arr [])]))
      = .error (.valueError .invalidShape) :=
  (C9_shape_failures (some (.obj [("locations", .arr [])]))).2
    (.obj [("locations", .arr [])]) rfl rfl

/-- Claim C6 (amended): as long as every element's validation outcome is
record-level (success or `ValueError`) and every element is a dict, the
loop of `load_json_locations` never aborts: failing elements are recorded
and skipped and the valid ones are collected in order.  A coordinates
field that is not an object, however, raises `AttributeError`, which the
`except ValueError` handler does not catch (see the counterexample). -/
theorem C6_record_errors_skipped (data : List Val)
    (h : ∀ v ∈ data, isRecordLevel (validate_location v) = true ∧ v.isObj = true) :
    ∀ start, ∃ es, validateLocs data start
      = .ok (data.filterMap (fun v => (validate_location v).toOption), es) := by
  induction data with
  | nil => intro start; exact ⟨[], rfl⟩
  | cons v rest ih =>
    intro start
    obtain ⟨hrl, hobj⟩ := h v (by simp)
    obtain ⟨es, hes⟩ := ih (fun w hw => h w (by simp [hw])) (start + 1)
    cases hv : validate_location v with
    | ok d =>
      refine ⟨es, ?_⟩
      unfold validateLocs
      rw [hv, hes]
      simp [List.filterMap_cons, hv, Except.toOption]
    | error e =>
      cases e with
      | valueError ve =>
        cases v with
        | obj fs =>
          refine ⟨(start, (objGet fs "name").getD (.str "Unknown"), ve) :: es, ?_⟩
          unfold validateLocs
          rw [hv]
          simp only [pyGetD]
          rw [hes]
          simp [List.filterMap_cons, hv, Except.toOption]
        | null => simp [Val.isObj] at hobj
        | bool b => simp [Val.isObj] at hobj
        | num q => simp [Val.isObj] at hobj
        | str s => simp [Val.isObj] at hobj
        | arr xs => simp [Val.isObj] at hobj
      | attributeError => rw [hv] at hrl; simp [isRecordLevel] at hrl
      | typeError => rw [hv] at hrl; simp [isRecordLevel] at hrl

/-- A location whose `coordinates` value is a bare array instead of a
GeoJSON object: `coords.get('type')` raises `AttributeError` on it. -/
def c6BadCoordsLoc : Val :=
  .obj [("locationId", .str "B1"), ("name", .str "Broken"),
        ("coordinates", .arr [.num 80, .num 7])]

/-- A well-formed location placed after the broken one. -/
def c6GoodLoc : Val :=
  .obj [("locationId", .str "G1"), ("name", .str "Kandy"),
        ("coordinates", .obj [("type", .str "Point"),
         ("coordinates", .arr [.num 80, .num 7])])]

/-- Claim C6 counterexample: with a non-object `coordinates` in the first
element, the loop aborts with `AttributeError` — the element is neither
recorded nor skipped, and the following valid element is never loaded, so
the failure escalates rather than being caught. -/
theorem C6_counterexample :
    validateLocs [c6BadCoordsLoc, c6GoodLoc] 1 = .error .attributeError := by rfl

/-- A location rejected by a record-level `ValueError` (wrong GeoJSON type). -/
def c6WrongTypeLoc : Val :=
  .obj [("locationId", .str "W1"), ("name", .str "Wrong"),
        ("coordinates", .obj [("type", .str "Polygon"),
         ("coordinates", .arr [.num 80, .num 7])])]

/-- Witness for C6 at a concrete list: a `ValueError` element is skipped
and the remaining valid element is still collected. -/
theorem C6_witness :
    ∃ es, validateLocs [c6WrongTypeLoc, c6GoodLoc] 1
      = .ok ([c6WrongTypeLoc, c6GoodLoc].filterMap
          (fun v => (validate_location v).toOption), es) :=
  C6_record_errors_skipped [c6WrongTypeLoc, c6GoodLoc]
    (by
      intro v hv
      rcases List.mem_cons.mp hv with h1 | hv'
      · subst h1; exact ⟨by rfl, by rfl⟩
      · rcases List.mem_cons.mp hv' with h2 | h3
        · subst h2; exact ⟨by rfl, by rfl⟩
        · cases h3)
    1

/-- The per-row loop of `load_csv_reviews` (rows enumerate from 2, matching
the CSV line numbers): valid rows are collected in order; `ValueError`
failures are recorded as `(row number, error)` and the row is skipped.
`validate_review` can only raise `ValueError`, so the loop never aborts. -/
def validateRows : List CsvRow → Nat → List ReviewDoc × List (Nat × ValErr)
  | [], _ => ([], [])
  | r :: rest, idx =>
    match validate_review r, validateRows rest (idx + 1) with
    | .ok d, (ds, es) => (d :: ds, es)
    | .error ve, (ds, es) => (ds, (idx, ve) :: es)

/-- The header check `expected_headers.issubset(actual_headers)`. -/
def headersOk (hdr : List String) : Bool :=
  requiredReviewFields.all (fun f => hdr.contains f)

/-- Outcome of the UTF-8 read attempt of the CSV file.  Decoding is
incremental, so a `UnicodeDecodeError` can fire before the header is read
(`failBeforeHeader`) or during row iteration after some rows were already
decoded and processed (`failDuringRows hdr partialRows`). -/
inductive Utf8Read where
  | success (hdr : List String) (rows : List CsvRow)
  | failDuringRows (hdr : List String) (partialRows : List CsvRow)
  | failBeforeHeader

/-- Embedding of `DataLoader.load_csv_reviews` from the open step on.
`latinRows` are the rows produced by the Latin-1 re-read of the same file
(that decode cannot fail).  On the UTF-8 path the header is checked and a
missing column raises the schema-mismatch `ValueError` before any row is
touched (that exception is not a `UnicodeDecodeError`, so it propagates).
When the decode fails during row iteration, the fallback re-reads the file
from the start and appends to the same `reviews` / `errors` lists, after
the rows already processed.  When the decode fails before the header, the
fallback path runs alone — and performs no header check at all. -/
def load_csv_reviews (u : Utf8Read) (latinRows : List CsvRow) :
    Except ValErr (List ReviewDoc × List (Nat × ValErr)) :=
  match u with
  | .success hdr rows =>
    if headersOk hdr then .ok (validateRows rows 2)
    else .error (.schemaMismatch
      (requiredReviewFields.filter (fun f => !(hdr.contains f))))
  | .failDuringRows hdr partialRows =>
    if headersOk hdr then
      .ok ((validateRows partialRows 2).1 ++ (validateRows latinRows 2).1,
           (validateRows partialRows 2).2 ++ (validateRows latinRows 2).2)
    else .error (.schemaMismatch
      (requiredReviewFields.filter (fun f => !(hdr.contains f))))
  | .failBeforeHeader => .ok (validateRows latinRows 2)

theorem validateRows_fst (rows : List CsvRow) :
    ∀ idx, (validateRows rows idx).1
      = rows.filterMap (fun r => (validate_review r).toOption) := by
  induction rows with
  | nil => intro idx; rfl
  | cons r rest ih =>
    intro idx
    unfold validateRows
    cases hr : validate_review r with
    | ok d =>
      cases hrec : validateRows rest (idx + 1) with
      | mk ds es =>
        have hih := ih (idx + 1)
        rw [hrec] at hih
        simp [List.filterMap_cons, hr, Except.toOption]
        exact hih
    | error ve =>
      cases hrec : validateRows rest (idx + 1) with
      | mk ds es =>
        have hih := ih (idx + 1)
        rw [hrec] at hih
        simp [List.filterMap_cons, hr, Except.toOption]
        exact hih

theorem validateLocs_ok_fst (data : List Val) :
    ∀ start ls es, validateLocs data start = .ok (ls, es) →
      ls = data.filterMap (fun v => (validate_location v).toOption) := by
  induction data with
  | nil =>
    intro start ls es h
    unfold validateLocs at h
    simp at h
    simp [h.1]
  | cons v rest ih =>
    intro start ls es h
    unfold validateLocs at h
    cases hv : validate_location v with
    | ok d =>
      rw [hv] at h
      cases hrec : validateLocs rest (start + 1) with
      | ok p =>
        cases p with
        | mk ls' es' =>
          rw [hrec] at h
          simp at h
          obtain ⟨h1, _⟩ := h
          rw [← h1]
          simp [List.filterMap_cons, hv, Except.toOption]
          exact ih (start + 1) ls' es' hrec
      | error e => rw [hrec] at h; simp at h
    | error e =>
      rw [hv] at h
      cases e with
      | valueError ve =>
        cases hg : pyGetD v "name" (.str "Unknown") with
        | error e' => rw [hg] at h; simp at h
        | ok nm =>
          rw [hg] at h
          cases hrec : validateLocs rest (start + 1) with
          | ok p =>
            cases p with
            | mk ls' es' =>
              rw [hrec] at h
              simp at h
              obtain ⟨h1, _⟩ := h
              rw [← h1]
              simp [List.filterMap_cons, hv, Except.toOption]
              exact ih (start + 1) ls' es' hrec
          | error e' => rw [hrec] at h; simp at h
      | attributeError => simp at h
      | typeError => simp at h

/-- Claim C3 (amended): on every single-pass path — UTF-8 decode succeeds,
or it fails before the header so only the Latin-1 pass runs — the returned
list is exactly the in-order subsequence of documents of the rows that pass
validation (`filterMap`), with no reordering and no duplication; the same
holds for the JSON loader whenever its loop completes.  But when the UTF-8
decode fails during row iteration, the rows already processed are emitted
again by the Latin-1 pass: the output is the processed prefix's documents
followed by the full file's documents, duplicating the prefix (see the
counterexample). -/
theorem C3_output_is_filterMap :
    (∀ (hdr : List String) (rows latinRows : List CsvRow),
        headersOk hdr = true →
        (load_csv_reviews (.success hdr rows) latinRows).map Prod.fst
          = .ok (rows.filterMap (fun r => (validate_review r).toOption))) ∧
    (∀ latinRows : List CsvRow,
        (load_csv_reviews .failBeforeHeader latinRows).map Prod.fst
          = .ok (latinRows.filterMap (fun r => (validate_review r).toOption))) ∧
    (∀ (hdr : List String) (partialRows latinRows : List CsvRow),
        headersOk hdr = true →
        (load_csv_reviews (.failDuringRows hdr partialRows) latinRows).map Prod.fst
          = .ok (partialRows.filterMap (fun r => (validate_review r).toOption)
              ++ latinRows.filterMap (fun r => (validate_review r).toOption))) ∧
    (∀ (data : List Val) (start : Nat) (ls : List Val)
        (es : List (Nat × Val × ValErr)),
        validateLocs data start = .ok (ls, es) →
        ls = data.filterMap (fun v => (validate_location v).toOption)) := by
  refine ⟨?_, ?_, ?_, fun data => validateLocs_ok_fst data⟩
  · intro hdr rows latinRows h
    simp [load_csv_reviews, h, Except.map, validateRows_fst rows 2]
  · intro latinRows
    simp [load_csv_reviews, Except.map, validateRows_fst latinRows 2]
  · intro hdr partialRows latinRows h
    simp [load_csv_reviews, h, Except.map, validateRows_fst partialRows 2,
      validateRows_fst latinRows 2]

/-- The full CSV header. -/
def hdrAll : List String := ["Destination", "District", "Location_Type", "Review"]

/-- First data row of the duplication scenario. -/
def rowA : CsvRow :=
  [("Destination", some "Galle"), ("District", some "Galle"),
   ("Location_Type", some "Beaches"), ("Review", some "Beautiful sandy beach")]

/-- Second data row of the duplication scenario. -/
def rowB : CsvRow :=
  [("Destination", some "Ella"), ("District", some "Badulla"),
   ("Location_Type", some "Nature"), ("Review", some "Lovely mountain views")]

/-- Document of `rowA`. -/
def docA : ReviewDoc := ⟨"Galle", "Galle", "Beaches", "Beautiful sandy beach"⟩

/-- Document of `rowB`. -/
def docB : ReviewDoc := ⟨"Ella", "Badulla", "Nature", "Lovely mountain views"⟩

/-- Claim C3 counterexample: the file's records are `rowA, rowB`; the UTF-8
decode fails during the second row, after `rowA` was already validated and
appended, and the Latin-1 fallback re-reads the whole file into the same
list.  The returned list contains `rowA`'s document twice, so the output is
not the duplicate-free subsequence the claim demands. -/
theorem C3_counterexample :
    (load_csv_reviews (.failDuringRows hdrAll [rowA]) [rowA, rowB]).map Prod.fst
      = .ok [docA, docA, docB] := by rfl

/-- Witness for C3 on the clean UTF-8 path at concrete rows. -/
theorem C3_witness :
    (load_csv_reviews (.success hdrAll [rowA, rowB]) []).map Prod.fst
      = .ok ([rowA, rowB].filterMap (fun r => (validate_review r).toOption)) :=
  C3_output_is_filterMap.1 hdrAll [rowA, rowB] [] (by rfl)

/-- Claim C4 (amended): on the UTF-8 path — whether the decode later
succeeds or fails during row iteration — a header lacking any of the four
required columns raises the schema-mismatch `ValueError` before any data
row is validated, appended or recorded.  The Latin-1 fallback path performs
no header check at all: rows are processed and merely fail one by one (see
the counterexample). -/
theorem C4_schema_mismatch_before_rows :
    (∀ (hdr : List String) (rows latinRows : List CsvRow),
        headersOk hdr = false →
        load_csv_reviews (.success hdr rows) latinRows
          = .error (.schemaMismatch
              (requiredReviewFields.filter (fun f => !(hdr.contains f))))) ∧
    (∀ (hdr : List String) (partialRows latinRows : List CsvRow),
        headersOk hdr = false →
        load_csv_reviews (.failDuringRows hdr partialRows) latinRows
          = .error (.schemaMismatch
              (requiredReviewFields.filter (fun f => !(hdr.contains f))))) := by
  constructor
  · intro hdr rows latinRows h
    simp [load_csv_reviews, h]
  · intro hdr partialRows latinRows h
    simp [load_csv_reviews, h]

/-- A row (as decoded by the Latin-1 pass) of a file whose header lacks the
`Review` column. -/
def noReviewRow : CsvRow :=
  [("Destination", some "Galle"), ("District", some "Galle"),
   ("Location_Type", some "Beaches")]

/-- Claim C4 counterexample: when the UTF-8 decode fails before the header,
the Latin-1 fallback reads a file lacking the `Review` column without any
header check: no schema-mismatch failure is raised — the row just fails
row-level validation and an empty list is returned. -/
theorem C4_counterexample :
    load_csv_reviews .failBeforeHeader [noReviewRow]
      = .ok ([], [(2, .missingField "Review")]) := by rfl

/-- Witness for C4 on the UTF-8 path with a header lacking `Review`. -/
theorem C4_witness :
    load_csv_reviews (.success ["Destination", "District", "Location_Type"] []) []
      = .error (.schemaMismatch (requiredReviewFields.filter
          (fun f => !(["Destination", "District", "Location_Type"].contains f)))) :=
  C4_schema_mismatch_before_rows.1 ["Destination", "District", "Location_Type"]
    [] [] (by rfl)

/-- Batch size used by the bulk insert loops (`Config.BATCH_SIZE`). -/
def BATCH_SIZE : Nat := 100

/-- Fuel-indexed chunking; the fuel is an upper bound on the list length,
so the out-of-fuel branch is never taken when initialised with the length
itself. -/
def chunkAux {α : Type} : Nat → List α → List (List α)
  | _, [] => []
  | 0, _ :: _ => []
  | Nat.succ fuel, x :: xs =>
    (x :: xs).take BATCH_SIZE :: chunkAux fuel ((x :: xs).drop BATCH_SIZE)

/-- The batches `docs[i:i+100]` for `i in range(0, total, 100)`, in order:
each step takes the next 100 documents and recurses on the rest. -/
def chunkBatches {α : Type} (l : List α) : List (List α) := chunkAux l.length l

theorem drop_batch_length_le {α : Type} (x : α) (xs : List α) (n : Nat)
    (h : (x :: xs).length ≤ n + 1) : ((x :: xs).drop BATCH_SIZE).length ≤ n := by
  have hd : ((x :: xs).drop BATCH_SIZE).length = (x :: xs).length - BATCH_SIZE :=
    List.length_drop _ _
  have hc : (x :: xs).length = xs.length + 1 := rfl
  have hB : BATCH_SIZE = 100 := rfl
  omega

theorem chunkAux_fuel_irrel {α : Type} :
    ∀ (n m : Nat) (l : List α), l.length ≤ n → l.length ≤ m →
      chunkAux n l = chunkAux m l := by
  intro n
  induction n with
  | zero =>
    intro m l hn _
    have : l = [] := List.length_eq_zero.mp (Nat.le_zero.mp hn)
    subst this
    cases m <;> rfl
  | succ n ih =>
    intro m l hn hm
    cases l with
    | nil => cases m <;> rfl
    | cons x xs =>
      cases m with
      | zero => exact absurd hm (by simp)
      | succ m =>
        show _ :: chunkAux n ((x :: xs).drop BATCH_SIZE)
          = _ :: chunkAux m ((x :: xs).drop BATCH_SIZE)
        rw [ih m ((x :: xs).drop BATCH_SIZE)
          (drop_batch_length_le x xs n hn) (drop_batch_length_le x xs m hm)]

theorem chunkBatches_cons {α : Type} (l : List α) (h : l ≠ []) :
    chunkBatches l = l.take BATCH_SIZE :: chunkBatches (l.drop BATCH_SIZE) := by
  cases l with
  | nil => exact absurd rfl h
  | cons x xs =>
    show (x :: xs).take BATCH_SIZE :: chunkAux xs.length ((x :: xs).drop BATCH_SIZE)
      = (x :: xs).take BATCH_SIZE :: chunkBatches ((x :: xs).drop BATCH_SIZE)
    rw [chunkAux_fuel_irrel xs.length ((x :: xs).drop BATCH_SIZE).length
      ((x :: xs).drop BATCH_SIZE)
      (drop_batch_length_le x xs xs.length (by simp)) (Nat.le_refl _)]
    rfl

theorem chunkBatches_flatten {α : Type} :
    ∀ (n : Nat) (l : List α), l.length ≤ n → (chunkBatches l).flatten = l := by
  intro n
  induction n with
  | zero =>
    intro l h
    have : l = [] := List.length_eq_zero.mp (Nat.le_zero.mp h)
    subst this
    rfl
  | succ n ih =>
    intro l h
    cases l with
    | nil => rfl
    | cons x xs =>
      rw [chunkBatches_cons _ (by simp)]
      rw [List.flatten_cons]
      rw [ih ((x :: xs).drop BATCH_SIZE) (drop_batch_length_le x xs n h)]
      exact List.take_append_drop _ _

theorem chunkBatches_nil_iff {α : Type} (l : List α) :
    chunkBatches l = [] ↔ l = [] := by
  constructor
  · intro h
    cases hl : l with
    | nil => rfl
    | cons x xs =>
      rw [hl] at h
      rw [chunkBatches_cons _ (by simp)] at h
      simp at h
  · intro h
    subst h
    rfl

theorem chunkBatches_sizes {α : Type} :
    ∀ (n : Nat) (l : List α), l.length ≤ n →
      (∀ b ∈ (chunkBatches l).dropLast, b.length = BATCH_SIZE)
      ∧ (∀ b ∈ chunkBatches l, 0 < b.length ∧ b.length ≤ BATCH_SIZE) := by
  intro n
  induction n with
  | zero =>
    intro l h
    have : l = [] := List.length_eq_zero.mp (Nat.le_zero.mp h)
    subst this
    refine ⟨fun b hb => ?_, fun b hb => ?_⟩ <;> simp [chunkBatches, chunkAux] at hb
  | succ n ih =>
    intro l h
    cases l with
    | nil =>
      refine ⟨fun b hb => ?_, fun b hb => ?_⟩ <;> simp [chunkBatches, chunkAux] at hb
    | cons x xs =>
      rw [chunkBatches_cons _ (by simp)]
      obtain ⟨ihFull, ihAll⟩ := ih _ (drop_batch_length_le x xs n h)
      have hB : BATCH_SIZE = 100 := rfl
      have hc : (x :: xs).length = xs.length + 1 := rfl
      have htake : ((x :: xs).take BATCH_SIZE).length
          = min BATCH_SIZE (x :: xs).length := List.length_take _ _
      constructor
      · intro b hb
        by_cases hrest : (x :: xs).drop BATCH_SIZE = []
        · rw [hrest] at hb
          simp [chunkBatches, chunkAux] at hb
        · have hne : chunkBatches ((x :: xs).drop BATCH_SIZE) ≠ [] := by
            intro hcontra
            exact hrest ((chunkBatches_nil_iff _).mp hcontra)
          rw [List.dropLast_cons_of_ne_nil hne] at hb
          rcases List.mem_cons.mp hb with hb1 | hb2
          · subst hb1
            have hlong : ¬((x :: xs).length ≤ BATCH_SIZE) := by
              intro hcon
              exact hrest (List.drop_eq_nil_iff.mpr hcon)
            omega
          · exact ihFull b hb2
      · intro b hb
        rcases List.mem_cons.mp hb with hb1 | hb2
        · subst hb1
          omega
        · exact ihAll b hb2

/-- The three counters returned by the insert methods. -/
structure InsertStats where
  total : Nat
  inserted : Nat
  errors : Nat
deriving DecidableEq, Repr

/-- One iteration of the insert loop on a batch.  The write behaviour of
the database is abstracted by `failsWrite`: a document for which it is true
fails write-level validation inside its batch.  When no document of the
batch fails, `insert_many` succeeds and all ids are returned; otherwise the
driver raises `BulkWriteError` carrying the number of documents persisted
(`nInserted`, the non-failing ones of the unordered batch) and the list of
write errors — the loop adds both and continues. -/
def insertBatchStep {α : Type} (failsWrite : α → Bool) (acc : Nat × Nat)
    (batch : List α) : Nat × Nat :=
  if (batch.filter failsWrite).length = 0 then
    (acc.1 + batch.length, acc.2)
  else
    (acc.1 + (batch.filter (fun d => !(failsWrite d))).length,
     acc.2 + (batch.filter failsWrite).length)

/-- Embedding of `MongoDBManager.insert_reviews`. -/
def insert_reviews {α : Type} (failsWrite : α → Bool) (docs : List α) :
    InsertStats :=
  let r := (chunkBatches docs).foldl (insertBatchStep failsWrite) (0, 0)
  { total := docs.length, inserted := r.1, errors := r.2 }

/-- Embedding of `MongoDBManager.insert_locations` (same loop body as
`insert_reviews` in the source). -/
def insert_locations {α : Type} (failsWrite : α → Bool) (docs : List α) :
    InsertStats :=
  let r := (chunkBatches docs).foldl (insertBatchStep failsWrite) (0, 0)
  { total := docs.length, inserted := r.1, errors := r.2 }

theorem foldl_insertBatchStep {α : Type} (failsWrite : α → Bool) :
    ∀ (bs : List (List α)) (acc : Nat × Nat),
      bs.foldl (insertBatchStep failsWrite) acc
        = (acc.1 + (bs.map
            (fun b => (b.filter (fun d => !(failsWrite d))).length)).sum,
           acc.2 + (bs.map (fun b => (b.filter failsWrite).length)).sum) := by
  intro bs
  induction bs with
  | nil => intro acc; simp
  | cons b rest ih =>
    intro acc
    rw [List.foldl_cons, ih]
    unfold insertBatchStep
    by_cases hb : (b.filter failsWrite).length = 0
    · rw [if_pos hb]
      have hball : b.filter (fun d => !(failsWrite d)) = b := by
        rw [List.filter_eq_self]
        intro a ha
        have := List.filter_eq_nil_iff.mp (List.length_eq_zero.mp hb) a ha
        simp [this]
      simp [hb, hball, Nat.add_assoc]
    · rw [if_neg hb]
      simp [Nat.add_assoc]

set_option maxRecDepth 8000 in
/-- Claim C5: `insert_reviews` partitions its input into consecutive
batches (their concatenation is the input, every non-final batch has
exactly 100 documents, every batch is non-empty with at most 100); an
input of 250 documents gives batch sizes 100, 100, 50 and `total = 250`;
the returned counters are the sums over batches of the per-batch persisted
and write-error counts, the loop continuing past failed batches; and a
concrete 250-document run with 2 write failures in the middle batch
returns `total = 250, inserted = 248, errors = 2`. -/
theorem C5_insert_reviews_batching :
    (∀ (α : Type) (docs : List α),
        (chunkBatches docs).flatten = docs
        ∧ (∀ b ∈ (chunkBatches docs).dropLast, b.length = BATCH_SIZE)
        ∧ (∀ b ∈ chunkBatches docs, 0 < b.length ∧ b.length ≤ BATCH_SIZE)) ∧
    (∀ (α : Type) (docs : List α), docs.length = 250 →
        (chunkBatches docs).map List.length = [100, 100, 50]
        ∧ (∀ failsWrite : α → Bool,
            (insert_reviews failsWrite docs).total = 250)) ∧
    (∀ (α : Type) (failsWrite : α → Bool) (docs : List α),
        insert_reviews failsWrite docs
          = { total := docs.length
              inserted := ((chunkBatches docs).map
                (fun b => (b.filter (fun d => !(failsWrite d))).length)).sum
              errors := ((chunkBatches docs).map
                (fun b => (b.filter failsWrite).length)).sum }) ∧
    insert_reviews (fun i => i == 110 || i == 120) (List.range 250)
      = { total := 250, inserted := 248, errors := 2 } := by
  refine ⟨?_, ?_, ?_, by rfl⟩
  · intro α docs
    exact ⟨chunkBatches_flatten docs.length docs (Nat.le_refl _),
      (chunkBatches_sizes docs.length docs (Nat.le_refl _)).1,
      (chunkBatches_sizes docs.length docs (Nat.le_refl _)).2⟩
  · intro α docs h
    constructor
    · have h1 : docs ≠ [] := by
        intro hh; rw [hh] at h; simp at h
      rw [chunkBatches_cons docs h1]
      have hB : BATCH_SIZE = 100 := rfl
      have hd1 : (docs.drop BATCH_SIZE).length = 150 := by
        rw [List.length_drop, h, hB]
      have h2 : docs.drop BATCH_SIZE ≠ [] := by
        intro hh; rw [hh] at hd1; simp at hd1
      rw [chunkBatches_cons _ h2]
      have hd2 : ((docs.drop BATCH_SIZE).drop BATCH_SIZE).length = 50 := by
        rw [List.length_drop, hd1, hB]
      have h3 : (docs.drop BATCH_SIZE).drop BATCH_SIZE ≠ [] := by
        intro hh; rw [hh] at hd2; simp at hd2
      rw [chunkBatches_cons _ h3]
      have hd3 : (((docs.drop BATCH_SIZE).drop BATCH_SIZE).drop BATCH_SIZE).length
          = 0 := by
        rw [List.length_drop, hd2, hB]
      have h4 : ((docs.drop BATCH_SIZE).drop BATCH_SIZE).drop BATCH_SIZE = [] :=
        List.length_eq_zero.mp hd3
      rw [h4]
      have ht1 : (docs.take BATCH_SIZE).length = 100 := by
        rw [List.length_take, h, hB]; omega
      have ht2 : ((docs.drop BATCH_SIZE).take BATCH_SIZE).length = 100 := by
        rw [List.length_take, hd1, hB]; omega
      have ht3 : (((docs.drop BATCH_SIZE).drop BATCH_SIZE).take BATCH_SIZE).length
          = 50 := by
        rw [List.length_take, hd2, hB]; omega
      simp [chunkBatches, chunkAux, ht1, ht2, ht3]
      omega
    · intro failsWrite
      show docs.length = 250
      exact h
  · intro α failsWrite docs
    unfold insert_reviews
    rw [foldl_insertBatchStep]
    simp

/-- Witness for C5 at a concrete 250-element list. -/
theorem C5_witness :
    (chunkBatches (List.range 250)).map List.length = [100, 100, 50]
    ∧ (∀ failsWrite : Nat → Bool,
        (insert_reviews failsWrite (List.range 250)).total = 250) :=
  C5_insert_reviews_batching.2.1 Nat (List.range 250) (by simp)

/-- Claim C10: the insert methods always return `total` equal to the input
length, whatever the write outcomes; on an empty input no batch is formed
at all and all three counters are zero. -/
theorem C10_insert_totals :
    (∀ (α : Type) (failsWrite : α → Bool) (docs : List α),
        (insert_reviews failsWrite docs).total = docs.length
        ∧ (insert_locations failsWrite docs).total = docs.length) ∧
    (∀ (α : Type) (failsWrite : α → Bool),
        chunkBatches ([] : List α) = []
        ∧ insert_reviews failsWrite ([] : List α)
            = { total := 0, inserted := 0, errors := 0 }
        ∧ insert_locations failsWrite ([] : List α)
            = { total := 0, inserted := 0, errors := 0 }) :=
  ⟨fun _ _ _ => ⟨rfl, rfl⟩, fun _ _ => ⟨rfl, rfl, rfl⟩⟩

/-- The index key kinds used by `create_indexes` (`ASCENDING`,
`DESCENDING`, `TEXT`, `GEOSPHERE`). -/
inductive IndexKind where
  | asc
  | desc
  | text
  | geo2dsphere
deriving DecidableEq, Repr

/-- One `create_index` call: target collection, key specification in order,
index name, and whether uniqueness is enforced. -/
structure IndexSpec where
  collection : String
  keys : List (String × IndexKind)
  indexName : String
  unique : Bool
deriving DecidableEq, Repr

/-- Embedding of `MongoDBManager.create_indexes`: the sequence of
`create_index` calls it issues, in source order. -/
def create_indexes : List IndexSpec :=
  [ { collection := "reviews", keys := [("review_text", .text)],
      indexName := "review_text_index", unique := false },
    { collection := "reviews", keys := [("destination", .asc)],
      indexName := "destination_index", unique := false },
    { collection := "reviews", keys := [("district", .asc)],
      indexName := "district_index", unique := false },
    { collection := "reviews", keys := [("location_type", .asc)],
      indexName := "location_type_index", unique := false },
    { collection := "reviews", keys := [("destination", .asc), ("location_type", .asc)],
      indexName := "destination_location_type_index", unique := false },
    { collection := "reviews", keys := [("created_at", .desc)],
      indexName := "created_at_index", unique := false },
    { collection := "locations", keys := [("coordinates", .geo2dsphere)],
      indexName := "coordinates_geospatial_index", unique := false },
    { collection := "locations", keys := [("locationId", .asc)],
      indexName := "location_id_unique_index", unique := true },
    { collection := "locations", keys := [("name", .asc)],
      indexName := "name_index", unique := false },
    { collection := "locations", keys := [("category", .asc)],
      indexName := "category_index", unique := false },
    { collection := "locations",
      keys := [("name", .text), ("details.description", .text),
               ("details.historicalInfo", .text)],
      indexName := "location_text_index", unique := false } ]

/-- Claim C8: `create_indexes` issues exactly these index creations in this
order — reviews: full-text on `review_text`; ascending on `destination`,
`district`, `location_type`; compound ascending on
`(destination, location_type)`; descending on `created_at`; locations:
2dsphere on `coordinates`; unique ascending on `locationId`; ascending on
`name` and `category`; full-text over `name` and the two nested description
fields — and the `locationId` index is the only unique one. -/
theorem C8_create_indexes_order :
    create_indexes.map (fun s => (s.collection, s.keys, s.unique))
      = [("reviews", [("review_text", IndexKind.text)], false),
         ("reviews", [("destination", IndexKind.asc)], false),
         ("reviews", [("district", IndexKind.asc)], false),
         ("reviews", [("location_type", IndexKind.asc)], false),
         ("reviews", [("destination", IndexKind.asc),
                      ("location_type", IndexKind.asc)], false),
         ("reviews", [("created_at", IndexKind.desc)], false),
         ("locations", [("coordinates", IndexKind.geo2dsphere)], false),
         ("locations", [("locationId", IndexKind.asc)], true),
         ("locations", [("name", IndexKind.asc)], false),
         ("locations", [("category", IndexKind.asc)], false),
         ("locations", [("name", IndexKind.text),
                        ("details.description", IndexKind.text),
                        ("details.historicalInfo", IndexKind.text)], false)]
    ∧ create_indexes.filter (fun s => s.unique)
      = [{ collection := "locations", keys := [("locationId", IndexKind.asc)],
           indexName := "location_id_unique_index", unique := true }] :=
  ⟨rfl, rfl⟩
